import Mathlib

/-!
Shallow embedding of the RDO Map Overlay native launcher
(`launcher.cpp`, class `RDOLauncher`).

The launcher is straight-line orchestration code over OS primitives
(`PathFileExistsW`, `CreateProcessW`, `connect`, `WaitForSingleObject`,
`TerminateProcess`, `CloseHandle`).  We model the OS as an oracle
(`Env`): which paths exist on disk, what `CreateProcessW` returns for a
given command line, and whether the k-th socket creation / TCP connect
attempt succeeds.  Each method of `RDOLauncher` becomes a function from
the oracle and the launcher state to a result, an updated state, and a
trace of observable events (log lines, spawns, connect attempts, dialogs,
waits, terminations, handle releases).  `PROCESS_INFORMATION` is modelled
by its two handles as naturals, `0` playing the role of `NULL` (the
records are zero-initialized in the source).
-/

namespace Launcher

/-- Model of `PROCESS_INFORMATION`: the two handles, `0` meaning unset. -/
structure ProcInfo where
  hProcess : Nat
  hThread : Nat
deriving DecidableEq

/-- The zero-initialized `PROCESS_INFORMATION` (`= {0}` in the source). -/
def ProcInfo.zeroed : ProcInfo := ⟨0, 0⟩

/-- Observable events emitted by the launcher, in program order. -/
inductive Event where
  /-- A diagnostic line written to the console. -/
  | logLine (msg : String)
  /-- `CheckDependency` failed: `Error: <name> not found at: <path>`. -/
  | missingDep (name path : String)
  /-- A `CreateProcessW` call: executable, full command line, working
      directory, whether the window is shown, and whether it succeeded. -/
  | spawnEv (executable cmdLine workDir : String) (shown ok : Bool)
  /-- A TCP connect attempt to `127.0.0.1:port` (the k-th poll). -/
  | connectAttempt (port k : Nat) (ok : Bool)
  /-- `Backend is ready!` (a connect attempt succeeded). -/
  | backendReady
  /-- `Timeout waiting for backend` (the poll loop gave up). -/
  | timeoutWarn
  /-- `std::this_thread::sleep_for` of the given milliseconds. -/
  | sleepMs (ms : Nat)
  /-- A modal `MessageBoxW` error dialog. -/
  | dialog (msg : String)
  /-- `WaitForSingleObject(h, INFINITE)`. -/
  | waitForSingleObject (h : Nat)
  /-- `TerminateProcess(h, 0)`. -/
  | terminateProcess (h : Nat)
  /-- `CloseHandle(h)`. -/
  | closeHandle (h : Nat)
deriving DecidableEq

/-- The OS oracle: file system, process creation and TCP connects.
`spawn` is keyed by the full command line passed to `CreateProcessW`;
`sockOk k` is whether the k-th `socket()` call returns a valid socket,
`connect port k` whether the k-th connect to `127.0.0.1:port` succeeds. -/
structure Env where
  fileExists : String → Bool
  spawn : String → Option ProcInfo
  sockOk : Nat → Bool
  connect : Nat → Nat → Bool

/-- A well-formed OS never hands out a `NULL` process handle for a
successful `CreateProcessW`. -/
def WFEnv (env : Env) : Prop :=
  ∀ s pi, env.spawn s = some pi → pi.hProcess ≠ 0

/-- The mutable fields of class `RDOLauncher`. -/
structure LState where
  installPath : String
  backendProcess : ProcInfo
  frontendProcess : ProcInfo
  debugMode : Bool
deriving DecidableEq

/-- `installPath + L"\\runtime\\python\\python.exe"`. -/
def pythonExe (p : String) : String := p ++ "\\runtime\\python\\python.exe"

/-- `installPath + L"\\electron\\electron.exe"`. -/
def electronExe (p : String) : String := p ++ "\\electron\\electron.exe"

/-- `installPath + L"\\app\\backend\\app.py"`. -/
def backendEntry (p : String) : String := p ++ "\\app\\backend\\app.py"

/-- `installPath + L"\\app\\main.js"`. -/
def frontendEntry (p : String) : String := p ++ "\\app\\main.js"

/-- `installPath + L"\\app"` (the argument handed to Electron). -/
def appDir (p : String) : String := p ++ "\\app"

/-- `installPath + L"\\debug.txt"`. -/
def debugMarker (p : String) : String := p ++ "\\debug.txt"

/-- Wrap a path in double quotes, as the source does for every argument. -/
def quoted (s : String) : String := "\"" ++ s ++ "\""

/-- The constructor `RDOLauncher()`: install path from the executable's
directory (a parameter here), zeroed process records, debug mode iff
`debug.txt` exists next to the executable. -/
def initState (env : Env) (p : String) : LState :=
  ⟨p, ProcInfo.zeroed, ProcInfo.zeroed, env.fileExists (debugMarker p)⟩

/-- `CheckDependency`: true iff the path exists; logs the failure. -/
def checkDependency (env : Env) (path name : String) : Bool × List Event :=
  if env.fileExists path then (true, [])
  else (false, [.missingDep name path])

/-- `StartProcess`: builds the command line `"<executable>" <arguments>`,
calls `CreateProcessW` with working directory `installPath`; the window is
hidden unless `showWindow`.  On failure the `PROCESS_INFORMATION` record
is left unchanged (the source leaves it zero-initialized) and an error
line is logged. -/
def startProcess (env : Env) (installPath executable arguments : String)
    (showWindow : Bool) (processInfo : ProcInfo) : Bool × ProcInfo × List Event :=
  let cmdLine := quoted executable ++ " " ++ arguments
  match env.spawn cmdLine with
  | some pi => (true, pi, [.spawnEv executable cmdLine installPath showWindow true])
  | none =>
      (false, processInfo,
        [.spawnEv executable cmdLine installPath showWindow false,
         .logLine ("Failed to start process: " ++ executable)])

/-- One poll of `WaitForPort` succeeds when the socket is created and the
connect to `127.0.0.1:port` returns `0`. -/
def attemptOk (env : Env) (port k : Nat) : Bool :=
  env.sockOk k && env.connect port k

/-- The events of one iteration of the poll loop: a connect attempt when
`socket()` returned a valid socket, nothing otherwise. -/
def pollEvents (env : Env) (port k : Nat) : List Event :=
  if env.sockOk k then [.connectAttempt port k (env.connect port k)] else []

/-- The `while (true)` loop of `WaitForPort`, with explicit fuel.  `k`
counts the iterations; the elapsed time at the k-th timeout check is
`500 * k` milliseconds (one 500 ms sleep per completed iteration, connect
attempts taking negligible time).  Returns the readiness flag, the exit
iteration, and the events; `none` means the fuel ran out before the loop
exited (shown below to be impossible for sufficient fuel). -/
def waitForPortLoop (env : Env) (port : Nat) (timeoutSeconds : Int) (k : Nat) :
    Nat → Option (Bool × Nat × List Event)
  | 0 => none
  | fuel + 1 =>
    if attemptOk env port k then
      some (true, k, pollEvents env port k ++ [.backendReady])
    else if 1000 * timeoutSeconds < 500 * (k : Int) then
      some (false, k, pollEvents env port k ++ [.timeoutWarn])
    else
      match waitForPortLoop env port timeoutSeconds (k + 1) fuel with
      | some (b, i, evs) => some (b, i, pollEvents env port k ++ .sleepMs 500 :: evs)
      | none => none

/-- Fuel sufficient for `waitForPortLoop` to exit on its own: two polls
per second of timeout, plus two. -/
def wfpFuel (timeoutSeconds : Int) : Nat := (2 * timeoutSeconds).toNat + 2

/-- `WaitForPort(port, timeoutSeconds)`: the loop run with sufficient
fuel (the default is never reached; see `waitForPortLoop_isSome`). -/
def waitForPort (env : Env) (port : Nat) (timeoutSeconds : Int) :
    Bool × Nat × List Event :=
  (waitForPortLoop env port timeoutSeconds 0 (wfpFuel timeoutSeconds)).getD
    (false, 0, [])

/-- `VerifyInstallation`: the four dependency checks, in source order,
short-circuiting on the first missing path. -/
def verifyInstallation (env : Env) (p : String) : Bool × List Event :=
  let c1 := checkDependency env (pythonExe p) "Python runtime"
  if !c1.1 then (false, c1.2)
  else
    let c2 := checkDependency env (electronExe p) "Electron runtime"
    if !c2.1 then (false, c2.2)
    else
      let c3 := checkDependency env (backendEntry p) "Backend application"
      if !c3.1 then (false, c3.2)
      else
        let c4 := checkDependency env (frontendEntry p) "Frontend application"
        if !c4.1 then (false, c4.2)
        else (true, [])

/-- The full command line used to spawn the backend:
`"<python.exe>" "<app.py>"`. -/
def backendCmd (p : String) : String :=
  quoted (pythonExe p) ++ " " ++ quoted (backendEntry p)

/-- The full command line used to spawn the frontend:
`"<electron.exe>" "<install>\app"`. -/
def frontendCmd (p : String) : String :=
  quoted (electronExe p) ++ " " ++ quoted (appDir p)

/-- `StartBackend`: spawn `python.exe "app.py"` (window shown only in
debug mode); on spawn failure show a dialog and return false; otherwise
wait for port 5000 (default 30 s timeout) and return true regardless of
readiness. -/
def startBackend (env : Env) (st : LState) : Bool × LState × List Event :=
  let arguments := quoted (backendEntry st.installPath)
  let r := startProcess env st.installPath (pythonExe st.installPath) arguments
    st.debugMode st.backendProcess
  if !r.1 then
    (false, { st with backendProcess := r.2.1 },
      r.2.2 ++ [.dialog "Failed to start backend process."])
  else
    let w := waitForPort env 5000 30
    (true, { st with backendProcess := r.2.1 }, r.2.2 ++ w.2.2)

/-- `StartFrontend`: spawn `electron.exe "<install>\app"`, window always
shown; on spawn failure show a dialog and return false. -/
def startFrontend (env : Env) (st : LState) : Bool × LState × List Event :=
  let arguments := quoted (appDir st.installPath)
  let r := startProcess env st.installPath (electronExe st.installPath) arguments
    true st.frontendProcess
  if !r.1 then
    (false, { st with frontendProcess := r.2.1 },
      r.2.2 ++ [.dialog "Failed to start Electron frontend."])
  else
    (true, { st with frontendProcess := r.2.1 }, r.2.2)

/-- `WaitForExit`: block on the frontend handle when it is set, otherwise
do nothing. -/
def waitForExit (st : LState) : List Event :=
  if st.frontendProcess.hProcess ≠ 0 then
    [.waitForSingleObject st.frontendProcess.hProcess]
  else []

/-- `Cleanup`: if the backend handle is set, terminate the backend and
close both its handles; if the frontend handle is set, close both its
handles.  The stored handles are NOT cleared (the source never resets
the `PROCESS_INFORMATION` members). -/
def cleanup (st : LState) : LState × List Event :=
  let bEvs : List Event :=
    if st.backendProcess.hProcess ≠ 0 then
      [.terminateProcess st.backendProcess.hProcess,
       .closeHandle st.backendProcess.hProcess,
       .closeHandle st.backendProcess.hThread]
    else []
  let fEvs : List Event :=
    if st.frontendProcess.hProcess ≠ 0 then
      [.closeHandle st.frontendProcess.hProcess,
       .closeHandle st.frontendProcess.hThread]
    else []
  (st, bEvs ++ fEvs)

/-- `Run`: verify, start backend, fixed 1 s delay, start frontend, wait
for the frontend to exit; exit codes 1/2/3/0. -/
def run (env : Env) (st : LState) : Nat × LState × List Event :=
  let v := verifyInstallation env st.installPath
  if !v.1 then
    (1, st, v.2 ++ [.dialog "Installation appears to be incomplete."])
  else
    let b := startBackend env st
    if !b.1 then (2, b.2.1, v.2 ++ b.2.2)
    else
      let f := startFrontend env b.2.1
      if !f.1 then (3, f.2.1, v.2 ++ b.2.2 ++ [.sleepMs 1000] ++ f.2.2)
      else
        (0, f.2.1, v.2 ++ b.2.2 ++ [.sleepMs 1000] ++ f.2.2 ++ waitForExit f.2.1)

/-- `WinMain` / `main`: construct the launcher, run it, and let the
destructor invoke `Cleanup` on whatever state `Run` left behind. -/
def mainProgram (env : Env) (p : String) : Nat × List Event :=
  let r := run env (initState env p)
  (r.1, r.2.2 ++ (cleanup r.2.1).2)

/-- Is `e` a spawn attempt (successful or not) of the given executable? -/
def isSpawnOf (exe : String) (e : Event) : Bool :=
  match e with
  | .spawnEv executable _ _ _ _ => executable == exe
  | _ => false

/-- Is `e` a successful spawn of the given executable? -/
def isSpawnOkOf (exe : String) (e : Event) : Bool :=
  match e with
  | .spawnEv executable _ _ _ ok => executable == exe && ok
  | _ => false

/-- Is `e` the end of the readiness wait (ready or timeout)? -/
def isReadyOrTimeout (e : Event) : Bool :=
  match e with
  | .backendReady => true
  | .timeoutWarn => true
  | _ => false

/-- Is `e` a successful TCP connect? -/
def isConnectSuccess (e : Event) : Bool :=
  match e with
  | .connectAttempt _ _ ok => ok
  | _ => false

/-- Is `e` a `TerminateProcess` call? -/
def isTerminate (e : Event) : Bool :=
  match e with
  | .terminateProcess _ => true
  | _ => false

/-- Is `e` a `WaitForSingleObject` call? -/
def isWaitEv (e : Event) : Bool :=
  match e with
  | .waitForSingleObject _ => true
  | _ => false

/-- Is `e` a modal error dialog? -/
def isDialog (e : Event) : Bool :=
  match e with
  | .dialog _ => true
  | _ => false

/-- Is `e` a `CheckDependency` failure log? -/
def isMissingDep (e : Event) : Bool :=
  match e with
  | .missingDep _ _ => true
  | _ => false

/-- Is `e` one of the events `WaitForPort` can emit? -/
def isPortEvent (e : Event) : Bool :=
  match e with
  | .connectAttempt _ _ _ => true
  | .backendReady => true
  | .timeoutWarn => true
  | .sleepMs _ => true
  | _ => false

/-- `precededBy p q l`: every `q`-event of `l` has a strictly earlier
`p`-event; equivalently, no `q`-event occurs before the first `p`-event. -/
def precededBy (p q : Event → Bool) : List Event → Bool
  | [] => true
  | e :: rest => !q e && (p e || precededBy p q rest)

/-! ## Helper lemmas -/

theorem waitForPortLoop_isSome (env : Env) (port : Nat) (t : Int) :
    ∀ (f k : Nat), 1000 * t < 500 * (k : Int) + 500 * (f : Int) →
      (waitForPortLoop env port t k (f + 1)).isSome = true := by
  intro f
  induction f with
  | zero =>
    intro k h
    simp only [Nat.cast_zero, mul_zero, add_zero] at h
    rw [waitForPortLoop]
    split
    · rfl
    · rfl
  | succ f ih =>
    intro k h
    rw [waitForPortLoop]
    split
    · rfl
    · split
      · rfl
      · have hrec := ih (k + 1) (by push_cast at h ⊢; linarith)
        cases hr : waitForPortLoop env port t (k + 1) (f + 1) with
        | none => rw [hr] at hrec; simp at hrec
        | some r => obtain ⟨b, i, evs⟩ := r; simp [hr]

theorem waitForPort_eq_loop (env : Env) (port : Nat) (t : Int) :
    waitForPortLoop env port t 0 (wfpFuel t) = some (waitForPort env port t) := by
  have h : (waitForPortLoop env port t 0 (wfpFuel t)).isSome = true := by
    have := waitForPortLoop_isSome env port t ((2 * t).toNat + 1) 0 (by push_cast; omega)
    simpa [wfpFuel] using this
  cases hr : waitForPortLoop env port t 0 (wfpFuel t) with
  | none => rw [hr] at h; simp at h
  | some r => simp [waitForPort, hr]

theorem pollEvents_port (env : Env) (port k : Nat) :
    ∀ e ∈ pollEvents env port k, isPortEvent e = true := by
  by_cases h : env.sockOk k <;> simp [pollEvents, h, isPortEvent]

theorem waitForPortLoop_events (env : Env) (port : Nat) (t : Int) :
    ∀ (f k : Nat) (b : Bool) (i : Nat) (evs : List Event), waitForPortLoop env port t k f = some (b, i, evs) →
      (∀ e ∈ evs, isPortEvent e = true) ∧ ∃ e ∈ evs, isReadyOrTimeout e = true := by
  intro f
  induction f with
  | zero => intro k b i evs h; rw [waitForPortLoop] at h; exact absurd h (by simp)
  | succ f ih =>
    intro k b i evs h
    rw [waitForPortLoop] at h
    split at h
    · have h' := h.symm
      simp only [Option.some.injEq, Prod.mk.injEq] at h'
      obtain ⟨hb, hi, hevs⟩ := h'
      subst hevs
      constructor
      · intro e he
        rcases List.mem_append.1 he with he | he
        · exact pollEvents_port env port k e he
        · simp at he; subst he; rfl
      · exact ⟨.backendReady, by simp, rfl⟩
    · split at h
      · have h' := h.symm
        simp only [Option.some.injEq, Prod.mk.injEq] at h'
        obtain ⟨hb, hi, hevs⟩ := h'
        subst hevs
        constructor
        · intro e he
          rcases List.mem_append.1 he with he | he
          · exact pollEvents_port env port k e he
          · simp at he; subst he; rfl
        · exact ⟨.timeoutWarn, by simp, rfl⟩
      · cases hr : waitForPortLoop env port t (k + 1) f with
        | none => rw [hr] at h; exact absurd h (by simp)
        | some r =>
          obtain ⟨b', i', evs'⟩ := r
          rw [hr] at h
          have h' := h.symm
          simp only [Option.some.injEq, Prod.mk.injEq] at h'
          obtain ⟨hb, hi, hevs⟩ := h'
          subst hevs
          obtain ⟨hall, e₀, he₀, hrt⟩ := ih (k + 1) b' i' evs' hr
          constructor
          · intro e he
            rcases List.mem_append.1 he with he | he
            · exact pollEvents_port env port k e he
            · rcases List.mem_cons.1 he with rfl | he
              · rfl
              · exact hall e he
          · exact ⟨e₀, by simp [he₀], hrt⟩

theorem precededBy_of_no_q (p q : Event → Bool) :
    ∀ l : List Event, (∀ e ∈ l, q e = false) → precededBy p q l = true := by
  intro l
  induction l with
  | nil => intro _; rfl
  | cons e rest ih =>
    intro h
    simp only [precededBy, h e (by simp), Bool.not_false, Bool.true_and]
    cases hp : p e with
    | true => rfl
    | false => simp [ih (fun e' he' => h e' (by simp [he']))]

theorem precededBy_append_of_no_q (p q : Event → Bool) :
    ∀ l1 l2 : List Event, (∀ e ∈ l1, q e = false) → precededBy p q l2 = true →
      precededBy p q (l1 ++ l2) = true := by
  intro l1
  induction l1 with
  | nil => intro l2 _ h2; simpa using h2
  | cons e rest ih =>
    intro l2 h1 h2
    simp only [List.cons_append, precededBy, h1 e (by simp), Bool.not_false, Bool.true_and]
    cases hp : p e with
    | true => rfl
    | false => simp [ih l2 (fun e' he' => h1 e' (by simp [he'])) h2]

theorem precededBy_append_of_p_mem (p q : Event → Bool) :
    ∀ l1 l2 : List Event, (∀ e ∈ l1, q e = false) → (∃ e ∈ l1, p e = true) →
      precededBy p q (l1 ++ l2) = true := by
  intro l1
  induction l1 with
  | nil => intro l2 _ h2; simp at h2
  | cons e rest ih =>
    intro l2 h1 h2
    simp only [List.cons_append, precededBy, h1 e (by simp), Bool.not_false, Bool.true_and]
    cases hp : p e with
    | true => rfl
    | false =>
      obtain ⟨e', he', hpe'⟩ := h2
      rcases List.mem_cons.1 he' with rfl | he'
      · rw [hp] at hpe'; exact absurd hpe' (by simp)
      · simp [ih l2 (fun x hx => h1 x (by simp [hx])) ⟨e', he', hpe'⟩]

theorem append_right_cancel_str (p a b : String) (h : p ++ a = p ++ b) : a = b := by
  apply String.ext
  have hd := congrArg String.data h
  rw [String.data_append, String.data_append] at hd
  exact List.append_cancel_left hd

theorem pythonExe_ne_electronExe (p : String) : pythonExe p ≠ electronExe p := by
  intro h
  have h2 := append_right_cancel_str p _ _ h
  exact absurd h2 (by decide)

theorem verify_events_missing (env : Env) (p : String) :
    ∀ e ∈ (verifyInstallation env p).2, isMissingDep e = true := by
  by_cases h1 : env.fileExists (pythonExe p) <;>
  by_cases h2 : env.fileExists (electronExe p) <;>
  by_cases h3 : env.fileExists (backendEntry p) <;>
  by_cases h4 : env.fileExists (frontendEntry p) <;>
  simp [verifyInstallation, checkDependency, h1, h2, h3, h4, isMissingDep]

theorem run_eq_verify_fail (env : Env) (p : String)
    (hv : (verifyInstallation env p).1 = false) :
    run env (initState env p) =
      (1, initState env p,
        (verifyInstallation env p).2 ++
          [.dialog "Installation appears to be incomplete."]) := by
  simp [run, initState, hv]

theorem run_eq_backend_fail (env : Env) (p : String)
    (hv : (verifyInstallation env p).1 = true)
    (hb : env.spawn (backendCmd p) = none) :
    run env (initState env p) =
      (2, initState env p,
        (verifyInstallation env p).2 ++
          [.spawnEv (pythonExe p) (backendCmd p) p (env.fileExists (debugMarker p)) false,
           .logLine ("Failed to start process: " ++ pythonExe p),
           .dialog "Failed to start backend process."]) := by
  have hb2 : env.spawn (quoted (pythonExe p) ++ " " ++ quoted (backendEntry p)) = none := hb
  simp [run, initState, startBackend, startProcess, backendCmd, hv, hb2]

theorem run_eq_frontend_fail (env : Env) (p : String) (bpi : ProcInfo)
    (hv : (verifyInstallation env p).1 = true)
    (hb : env.spawn (backendCmd p) = some bpi)
    (hf : env.spawn (frontendCmd p) = none) :
    run env (initState env p) =
      (3, ⟨p, bpi, ProcInfo.zeroed, env.fileExists (debugMarker p)⟩,
        (verifyInstallation env p).2 ++
          ([.spawnEv (pythonExe p) (backendCmd p) p (env.fileExists (debugMarker p)) true] ++
            (waitForPort env 5000 30).2.2) ++
          [.sleepMs 1000] ++
          [.spawnEv (electronExe p) (frontendCmd p) p true false,
           .logLine ("Failed to start process: " ++ electronExe p),
           .dialog "Failed to start Electron frontend."]) := by
  have hb2 : env.spawn (quoted (pythonExe p) ++ " " ++ quoted (backendEntry p)) = some bpi := hb
  have hf2 : env.spawn (quoted (electronExe p) ++ " " ++ quoted (appDir p)) = none := hf
  simp [run, initState, startBackend, startFrontend, startProcess, backendCmd, frontendCmd,
    hv, hb2, hf2]

theorem run_eq_ok (env : Env) (p : String) (bpi fpi : ProcInfo)
    (hv : (verifyInstallation env p).1 = true)
    (hb : env.spawn (backendCmd p) = some bpi)
    (hf : env.spawn (frontendCmd p) = some fpi) :
    run env (initState env p) =
      (0, ⟨p, bpi, fpi, env.fileExists (debugMarker p)⟩,
        (verifyInstallation env p).2 ++
          ([.spawnEv (pythonExe p) (backendCmd p) p (env.fileExists (debugMarker p)) true] ++
            (waitForPort env 5000 30).2.2) ++
          [.sleepMs 1000] ++
          [.spawnEv (electronExe p) (frontendCmd p) p true true] ++
          waitForExit ⟨p, bpi, fpi, env.fileExists (debugMarker p)⟩) := by
  have hb2 : env.spawn (quoted (pythonExe p) ++ " " ++ quoted (backendEntry p)) = some bpi := hb
  have hf2 : env.spawn (quoted (electronExe p) ++ " " ++ quoted (appDir p)) = some fpi := hf
  simp [run, initState, startBackend, startFrontend, startProcess, backendCmd, frontendCmd,
    hv, hb2, hf2]

/-! ## The claims -/

/-- Claim C10: if the frontend process was never successfully spawned (its
handle is null), `WaitForExit` returns immediately without waiting on any
handle (it emits no wait call). -/
theorem waitForExit_null_handle (st : LState) (h : st.frontendProcess.hProcess = 0) :
    waitForExit st = [] := by
  simp [waitForExit, h]

/-- Witness for C10 at a concrete state with no frontend handle. -/
theorem waitForExit_null_handle_witness :
    waitForExit ⟨"C:\\rdo", ProcInfo.zeroed, ProcInfo.zeroed, false⟩ = [] :=
  waitForExit_null_handle ⟨"C:\\rdo", ProcInfo.zeroed, ProcInfo.zeroed, false⟩ rfl

/-- Claim C6 counterexample: `Cleanup` does not clear the stored handles,
so on a state whose backend handle is set, a second invocation performs the
same `TerminateProcess`/`CloseHandle` calls again — a second release of
handles already released by the first invocation, contradicting the claim
that invoking `Cleanup` twice performs no second terminate/release. -/
theorem cleanup_not_idempotent_cex :
    ((cleanup ⟨"C:\\rdo", ⟨5, 6⟩, ProcInfo.zeroed, false⟩).2 =
      [.terminateProcess 5, .closeHandle 5, .closeHandle 6]) ∧
    ((cleanup (cleanup ⟨"C:\\rdo", ⟨5, 6⟩, ProcInfo.zeroed, false⟩).1).2 =
      [.terminateProcess 5, .closeHandle 5, .closeHandle 6]) := by
  exact ⟨rfl, rfl⟩

/-- Claim C6 (amended): `Cleanup` never mutates the launcher state, and
with both handles unset it performs no action at all (so repeated calls on
a handle-free launcher are harmless no-ops); but because the handle fields
are not cleared, a second invocation repeats exactly the terminate/release
actions of the first whenever a handle is set. -/
theorem cleanup_unset_noop_and_repeat (st : LState) :
    (cleanup st).1 = st ∧
    (st.backendProcess.hProcess = 0 → st.frontendProcess.hProcess = 0 →
      (cleanup st).2 = []) ∧
    (cleanup (cleanup st).1).2 = (cleanup st).2 := by
  refine ⟨rfl, ?_, rfl⟩
  intro hb hf
  simp [cleanup, hb, hf]

/-- Witness for the amended C6 at a concrete handle-free state. -/
theorem cleanup_unset_noop_and_repeat_witness :
    (cleanup ⟨"C:\\rdo", ProcInfo.zeroed, ProcInfo.zeroed, true⟩).2 = [] :=
  (cleanup_unset_noop_and_repeat ⟨"C:\\rdo", ProcInfo.zeroed, ProcInfo.zeroed, true⟩).2.1 rfl rfl

/-- Claim C7 counterexample: the frontend spawn's single argument is the
quoted `app` subdirectory of the install root, not the quoted install-root
directory itself, so the claimed command line differs from the actual one
at the concrete install path `C:\rdo`. -/
theorem frontend_arg_cex :
    let env0 : Env := ⟨fun _ => true, fun _ => some ⟨5, 6⟩, fun _ => true, fun _ _ => true⟩
    ((startFrontend env0 (initState env0 "C:\\rdo")).2.2.head? =
      some (.spawnEv (electronExe "C:\\rdo") (frontendCmd "C:\\rdo") "C:\\rdo" true true)) ∧
    frontendCmd "C:\\rdo" ≠ quoted (electronExe "C:\\rdo") ++ " " ++ quoted "C:\\rdo" := by
  exact ⟨rfl, by decide⟩

/-- Claim C7 (amended): `StartFrontend` always issues its spawn with the
command line consisting of the quoted UI-runtime binary path followed by
the quoted `app` subdirectory of the install root as its single argument,
with working directory equal to the install root and the window shown
(never hidden). -/
theorem startFrontend_spawn_shape (env : Env) (st : LState) :
    (startFrontend env st).2.2.head? =
      some (.spawnEv (electronExe st.installPath)
        (quoted (electronExe st.installPath) ++ " " ++ quoted (appDir st.installPath))
        st.installPath true (env.spawn (frontendCmd st.installPath)).isSome) := by
  cases hs : env.spawn (frontendCmd st.installPath) <;>
  simp only [frontendCmd] at hs <;>
  simp [startFrontend, startProcess, frontendCmd, hs]

/-- Claim C4: `StartBackend` returns false exactly when the backend spawn
failed, in which case an error dialog is among its events; in every other
case — the readiness wait's outcome being irrelevant — it returns true. -/
theorem startBackend_false_iff (env : Env) (st : LState) :
    ((startBackend env st).1 = false ↔ env.spawn (backendCmd st.installPath) = none) ∧
    ((startBackend env st).1 = false → (startBackend env st).2.2.any isDialog = true) := by
  cases hs : env.spawn (backendCmd st.installPath) <;>
  simp only [backendCmd] at hs <;>
  simp [startBackend, startProcess, backendCmd, hs, isDialog]

/-- Witness for C4 at a concrete environment whose backend spawn fails. -/
theorem startBackend_false_iff_witness :
    let env0 : Env := ⟨fun _ => true, fun _ => none, fun _ => true, fun _ _ => false⟩
    let st0 : LState := ⟨"C:\\rdo", ProcInfo.zeroed, ProcInfo.zeroed, false⟩
    ((startBackend env0 st0).1 = false ↔ env0.spawn (backendCmd "C:\\rdo") = none) ∧
    ((startBackend env0 st0).1 = false → (startBackend env0 st0).2.2.any isDialog = true) :=
  startBackend_false_iff
    ⟨fun _ => true, fun _ => none, fun _ => true, fun _ _ => false⟩
    ⟨"C:\\rdo", ProcInfo.zeroed, ProcInfo.zeroed, false⟩

/-- Claim C3: `VerifyInstallation` returns true exactly when all four
dependency paths exist; when some path is missing it returns false and
logs exactly the first missing dependency in the fixed check order
(interpreter, UI runtime, backend entry, frontend entry). -/
theorem verifyInstallation_first_missing (env : Env) (p : String) :
    ((verifyInstallation env p).1 =
      (env.fileExists (pythonExe p) && env.fileExists (electronExe p) &&
       env.fileExists (backendEntry p) && env.fileExists (frontendEntry p))) ∧
    (∀ nm pth,
      ([(pythonExe p, "Python runtime"), (electronExe p, "Electron runtime"),
        (backendEntry p, "Backend application"),
        (frontendEntry p, "Frontend application")].find?
          (fun d => !env.fileExists d.1)) = some (pth, nm) →
      verifyInstallation env p = (false, [.missingDep nm pth])) := by
  by_cases h1 : env.fileExists (pythonExe p) <;>
  by_cases h2 : env.fileExists (electronExe p) <;>
  by_cases h3 : env.fileExists (backendEntry p) <;>
  by_cases h4 : env.fileExists (frontendEntry p) <;>
  simp [verifyInstallation, checkDependency, h1, h2, h3, h4]

/-- Witness for C3 at a concrete environment missing only the UI runtime. -/
theorem verifyInstallation_first_missing_witness :
    let env0 : Env :=
      ⟨fun s => !(s == electronExe "C:\\rdo"), fun _ => none, fun _ => true, fun _ _ => false⟩
    ((verifyInstallation env0 "C:\\rdo").1 =
      (env0.fileExists (pythonExe "C:\\rdo") && env0.fileExists (electronExe "C:\\rdo") &&
       env0.fileExists (backendEntry "C:\\rdo") && env0.fileExists (frontendEntry "C:\\rdo"))) ∧
    (∀ nm pth,
      ([(pythonExe "C:\\rdo", "Python runtime"), (electronExe "C:\\rdo", "Electron runtime"),
        (backendEntry "C:\\rdo", "Backend application"),
        (frontendEntry "C:\\rdo", "Frontend application")].find?
          (fun d => !env0.fileExists d.1)) = some (pth, nm) →
      verifyInstallation env0 "C:\\rdo" = (false, [.missingDep nm pth])) :=
  verifyInstallation_first_missing
    ⟨fun s => !(s == electronExe "C:\\rdo"), fun _ => none, fun _ => true, fun _ _ => false⟩
    "C:\\rdo"

/-- Claim C1: for every execution of `Run` (over a well-formed OS), the
exit code is 1 when verification fails, else 2 when `StartBackend` returns
false, else 3 when `StartFrontend` returns false, else 0 — and in the
0 case only after the final trace event is the blocking wait on the
frontend process; no other exit code is ever returned. -/
theorem run_exit_codes (env : Env) (p : String) (hwf : WFEnv env) :
    ((run env (initState env p)).1 =
      (if (verifyInstallation env p).1 = false then 1
       else if (startBackend env (initState env p)).1 = false then 2
       else if (startFrontend env (startBackend env (initState env p)).2.1).1 = false then 3
       else 0)) ∧
    ((run env (initState env p)).1 = 0 ∨ (run env (initState env p)).1 = 1 ∨
      (run env (initState env p)).1 = 2 ∨ (run env (initState env p)).1 = 3) ∧
    ((run env (initState env p)).1 = 0 →
      ∃ h, h ≠ 0 ∧
        (run env (initState env p)).2.2.getLast? = some (.waitForSingleObject h)) := by
  cases hv : (verifyInstallation env p).1 with
  | false =>
    rw [run_eq_verify_fail env p hv]
    simp [hv]
  | true =>
    cases hb : env.spawn (backendCmd p) with
    | none =>
      have hsb : (startBackend env (initState env p)).1 = false := by
        have hb2 : env.spawn (quoted (pythonExe p) ++ " " ++ quoted (backendEntry p)) = none := hb
        simp [startBackend, startProcess, initState, hb2]
      rw [run_eq_backend_fail env p hv hb]
      simp [hv, hsb]
    | some bpi =>
      have hb2 : env.spawn (quoted (pythonExe p) ++ " " ++ quoted (backendEntry p)) = some bpi := hb
      have hsb : (startBackend env (initState env p)).1 = true := by
        simp [startBackend, startProcess, initState, hb2]
      cases hf : env.spawn (frontendCmd p) with
      | none =>
        have hf2 : env.spawn (quoted (electronExe p) ++ " " ++ quoted (appDir p)) = none := hf
        have hsf : (startFrontend env (startBackend env (initState env p)).2.1).1 = false := by
          simp [startFrontend, startBackend, startProcess, initState, hb2, hf2]
        rw [run_eq_frontend_fail env p bpi hv hb hf]
        simp [hv, hsb, hsf]
      | some fpi =>
        have hf2 : env.spawn (quoted (electronExe p) ++ " " ++ quoted (appDir p)) = some fpi := hf
        have hsf : (startFrontend env (startBackend env (initState env p)).2.1).1 = true := by
          simp [startFrontend, startBackend, startProcess, initState, hb2, hf2]
        have hne : fpi.hProcess ≠ 0 := hwf _ _ hf
        rw [run_eq_ok env p bpi fpi hv hb hf]
        refine ⟨by simp [hv, hsb, hsf], by simp, fun _ => ⟨fpi.hProcess, hne, ?_⟩⟩
        have hwfe : waitForExit ⟨p, bpi, fpi, env.fileExists (debugMarker p)⟩ =
            [.waitForSingleObject fpi.hProcess] := by simp [waitForExit, hne]
        rw [hwfe, List.getLast?_append_of_ne_nil _ (by simp)]
        rfl

/-- Witness for C1: a concrete all-succeeding environment reaches exit
code 0 with the wait on the frontend handle as the final event. -/
theorem run_exit_codes_witness :
    ∃ h, h ≠ 0 ∧
      (run ⟨fun _ => true, fun _ => some ⟨7, 8⟩, fun _ => true, fun _ _ => true⟩
        (initState ⟨fun _ => true, fun _ => some ⟨7, 8⟩, fun _ => true, fun _ _ => true⟩
          "C:\\rdo")).2.2.getLast? = some (.waitForSingleObject h) :=
  (run_exit_codes ⟨fun _ => true, fun _ => some ⟨7, 8⟩, fun _ => true, fun _ _ => true⟩
    "C:\\rdo" (fun s pi h => by cases h; decide)).2.2 (by decide)

theorem isSpawnOf_eq_false_of_missing (x : String) (e : Event)
    (h : isMissingDep e = true) : isSpawnOf x e = false := by
  cases e <;> simp_all [isSpawnOf, isMissingDep]

/-- Claim C5: in every execution in which the backend spawn fails (so
verification passed but `CreateProcessW` refused the backend command
line), `StartFrontend` is never invoked — the whole program trace contains
no spawn attempt of the UI-runtime binary — and the process exits with
code 2. -/
theorem backend_fail_no_frontend (env : Env) (p : String)
    (hv : (verifyInstallation env p).1 = true)
    (hb : env.spawn (backendCmd p) = none) :
    (mainProgram env p).1 = 2 ∧
    (mainProgram env p).2.all (fun e => !isSpawnOf (electronExe p) e) = true := by
  have hrun := run_eq_backend_fail env p hv hb
  have hcl : (cleanup (initState env p)).2 = [] := by
    simp [cleanup, initState, ProcInfo.zeroed]
  constructor
  · simp [mainProgram, hrun]
  · have hpe : (pythonExe p == electronExe p) = false :=
      beq_eq_false_iff_ne.mpr (pythonExe_ne_electronExe p)
    refine List.all_eq_true.mpr ?_
    intro e he
    simp only [mainProgram, hrun, hcl, List.append_nil] at he
    rcases List.mem_append.1 he with he | he
    · have hm := verify_events_missing env p e he
      simp [isSpawnOf_eq_false_of_missing (electronExe p) e hm]
    · simp at he
      rcases he with rfl | rfl | rfl <;> simp [isSpawnOf, hpe]

/-- Witness for C5 at a concrete environment whose backend spawn fails. -/
theorem backend_fail_no_frontend_witness :
    (mainProgram ⟨fun _ => true, fun _ => none, fun _ => true, fun _ _ => false⟩ "C:\\rdo").1 = 2 ∧
    (mainProgram ⟨fun _ => true, fun _ => none, fun _ => true, fun _ _ => false⟩
        "C:\\rdo").2.all (fun e => !isSpawnOf (electronExe "C:\\rdo") e) = true :=
  backend_fail_no_frontend ⟨fun _ => true, fun _ => none, fun _ => true, fun _ _ => false⟩
    "C:\\rdo" (by decide) rfl

/-- Claim C9: each process-information record holds a non-zero handle only
if the corresponding spawn succeeded — a failed (or never attempted) spawn
leaves the record zero-initialized — and consequently every
`TerminateProcess`/`CloseHandle` issued by `Cleanup` on the state `Run`
leaves behind targets a handle obtained from a successful spawn. -/
theorem handles_only_from_spawn (env : Env) (p : String) :
    ((run env (initState env p)).2.1.backendProcess ≠ ProcInfo.zeroed →
      ∃ pi, env.spawn (backendCmd p) = some pi ∧
        (run env (initState env p)).2.1.backendProcess = pi) ∧
    ((run env (initState env p)).2.1.frontendProcess ≠ ProcInfo.zeroed →
      ∃ pi, env.spawn (frontendCmd p) = some pi ∧
        (run env (initState env p)).2.1.frontendProcess = pi) ∧
    (∀ h, Event.terminateProcess h ∈ (cleanup (run env (initState env p)).2.1).2 →
      ∃ pi, env.spawn (backendCmd p) = some pi ∧ h = pi.hProcess) ∧
    (∀ h, Event.closeHandle h ∈ (cleanup (run env (initState env p)).2.1).2 →
      (∃ pi, env.spawn (backendCmd p) = some pi ∧ (h = pi.hProcess ∨ h = pi.hThread)) ∨
      (∃ pi, env.spawn (frontendCmd p) = some pi ∧ (h = pi.hProcess ∨ h = pi.hThread))) := by
  cases hv : (verifyInstallation env p).1 with
  | false =>
    rw [run_eq_verify_fail env p hv]
    simp [cleanup, initState, ProcInfo.zeroed]
  | true =>
    cases hb : env.spawn (backendCmd p) with
    | none =>
      rw [run_eq_backend_fail env p hv hb]
      simp [cleanup, initState, ProcInfo.zeroed]
    | some bpi =>
      cases hf : env.spawn (frontendCmd p) with
      | none =>
        rw [run_eq_frontend_fail env p bpi hv hb hf]
        refine ⟨fun _ => ⟨bpi, rfl, rfl⟩, by simp [ProcInfo.zeroed], ?_, ?_⟩
        · intro h hmem
          by_cases hbp : bpi.hProcess = 0
          · simp [cleanup, hbp, ProcInfo.zeroed] at hmem
          · simp [cleanup, hbp, ProcInfo.zeroed] at hmem
            exact ⟨bpi, rfl, hmem⟩
        · intro h hmem
          by_cases hbp : bpi.hProcess = 0
          · simp [cleanup, hbp, ProcInfo.zeroed] at hmem
          · simp [cleanup, hbp, ProcInfo.zeroed] at hmem
            exact Or.inl ⟨bpi, rfl, hmem⟩
      | some fpi =>
        rw [run_eq_ok env p bpi fpi hv hb hf]
        refine ⟨fun _ => ⟨bpi, rfl, rfl⟩, fun _ => ⟨fpi, rfl, rfl⟩, ?_, ?_⟩
        · intro h hmem
          by_cases hbp : bpi.hProcess = 0 <;>
          by_cases hfp : fpi.hProcess = 0 <;>
          simp [cleanup, hbp, hfp] at hmem <;>
          exact ⟨bpi, rfl, hmem⟩
        · intro h hmem
          by_cases hbp : bpi.hProcess = 0 <;>
          by_cases hfp : fpi.hProcess = 0 <;>
          simp [cleanup, hbp, hfp] at hmem
          · exact Or.inr ⟨fpi, rfl, hmem⟩
          · exact Or.inl ⟨bpi, rfl, hmem⟩
          · rcases hmem with hmem | hmem | hmem | hmem
            · exact Or.inl ⟨bpi, rfl, Or.inl hmem⟩
            · exact Or.inl ⟨bpi, rfl, Or.inr hmem⟩
            · exact Or.inr ⟨fpi, rfl, Or.inl hmem⟩
            · exact Or.inr ⟨fpi, rfl, Or.inr hmem⟩

/-- Witness for C9: with an all-succeeding concrete environment the final
backend record is exactly the spawned handle pair. -/
theorem handles_only_from_spawn_witness :
    ∃ pi, (⟨fun _ => true, fun _ => some ⟨9, 10⟩, fun _ => true,
        fun _ _ => true⟩ : Env).spawn (backendCmd "C:\\rdo") = some pi ∧
      (run ⟨fun _ => true, fun _ => some ⟨9, 10⟩, fun _ => true, fun _ _ => true⟩
        (initState ⟨fun _ => true, fun _ => some ⟨9, 10⟩, fun _ => true, fun _ _ => true⟩
          "C:\\rdo")).2.1.backendProcess = pi :=
  (handles_only_from_spawn ⟨fun _ => true, fun _ => some ⟨9, 10⟩, fun _ => true,
    fun _ _ => true⟩ "C:\\rdo").1 (by decide)

theorem waitForPortLoop_ready_spec (env : Env) (port : Nat) (t : Int) :
    ∀ (f k : Nat), 1000 * t < 500 * (k : Int) + 500 * (f : Int) →
      ∃ b i evs, waitForPortLoop env port t k (f + 1) = some (b, i, evs) ∧ k ≤ i ∧
        (b = true → attemptOk env port i = true ∧
          ∀ j, k ≤ j → j < i → attemptOk env port j = false) ∧
        (b = false → (∀ j, k ≤ j → j ≤ i → attemptOk env port j = false) ∧
          1000 * t < 500 * (i : Int) ∧
          ∀ j, k ≤ j → j < i → 500 * (j : Int) ≤ 1000 * t) := by
  intro f
  induction f with
  | zero =>
    intro k h
    simp only [Nat.cast_zero, mul_zero, add_zero] at h
    rw [waitForPortLoop]
    split
    · rename_i hA
      exact ⟨true, k, _, rfl, le_refl k,
        fun _ => ⟨hA, fun j h1 h2 => by exfalso; omega⟩, by simp⟩
    · rename_i hA
      refine ⟨false, k, _, rfl, le_refl k, by simp,
        fun _ => ⟨?_, h, fun j h1 h2 => by exfalso; omega⟩⟩
      intro j h1 h2
      have hjk : j = k := le_antisymm h2 h1
      subst hjk
      exact Bool.eq_false_iff.mpr hA
  | succ f ih =>
    intro k h
    rw [waitForPortLoop]
    split
    · rename_i hA
      exact ⟨true, k, _, rfl, le_refl k,
        fun _ => ⟨hA, fun j h1 h2 => by exfalso; omega⟩, by simp⟩
    · split
      · rename_i hA hT
        refine ⟨false, k, _, rfl, le_refl k, by simp,
          fun _ => ⟨?_, hT, fun j h1 h2 => by exfalso; omega⟩⟩
        intro j h1 h2
        have hjk : j = k := le_antisymm h2 h1
        subst hjk
        exact Bool.eq_false_iff.mpr hA
      · rename_i hA hT
        obtain ⟨b, i, evs, hr, hki, hbt, hbf⟩ := ih (k + 1) (by push_cast at h ⊢; linarith)
        refine ⟨b, i, pollEvents env port k ++ .sleepMs 500 :: evs, by rw [hr], by omega,
          ?_, ?_⟩
        · intro hb
          obtain ⟨ha, hmin⟩ := hbt hb
          refine ⟨ha, fun j h1 h2 => ?_⟩
          rcases Nat.eq_or_lt_of_le h1 with rfl | h1x
          · exact Bool.eq_false_iff.mpr hA
          · exact hmin j h1x h2
        · intro hb
          obtain ⟨hall, hti, hmin⟩ := hbf hb
          refine ⟨fun j h1 h2 => ?_, hti, fun j h1 h2 => ?_⟩
          · rcases Nat.eq_or_lt_of_le h1 with rfl | h1x
            · exact Bool.eq_false_iff.mpr hA
            · exact hall j h1x h2
          · rcases Nat.eq_or_lt_of_le h1 with rfl | h1x
            · omega
            · exact hmin j h1x h2

/-- Claim C8: for every environment, port and timeout value, the
`WaitForPort` poll loop terminates within its fuel and `WaitForPort`
returns its result: readiness `true` is reported exactly at the first
successful connect attempt, and otherwise the loop returns normally (no
error value exists) at the first poll whose elapsed time (500 ms per
completed poll) exceeds the timeout, every earlier poll having been within
the timeout window. -/
theorem waitForPort_terminating (env : Env) (port : Nat) (t : Int) :
    ∃ b i evs, waitForPortLoop env port t 0 (wfpFuel t) = some (b, i, evs) ∧
      waitForPort env port t = (b, i, evs) ∧
      (b = true → attemptOk env port i = true ∧
        ∀ j, j < i → attemptOk env port j = false) ∧
      (b = false → (∀ j, j ≤ i → attemptOk env port j = false) ∧
        1000 * t < 500 * (i : Int) ∧
        ∀ j, j < i → 500 * (j : Int) ≤ 1000 * t) := by
  obtain ⟨b, i, evs, hr, hki, hbt, hbf⟩ :=
    waitForPortLoop_ready_spec env port t ((2 * t).toNat + 1) 0 (by push_cast; omega)
  have hr2 : waitForPortLoop env port t 0 (wfpFuel t) = some (b, i, evs) := hr
  refine ⟨b, i, evs, hr2, by simp [waitForPort, hr2], ?_, ?_⟩
  · intro hb
    obtain ⟨ha, hmin⟩ := hbt hb
    exact ⟨ha, fun j h2 => hmin j (Nat.zero_le j) h2⟩
  · intro hb
    obtain ⟨hall, hti, hmin⟩ := hbf hb
    exact ⟨fun j h2 => hall j (Nat.zero_le j) h2, hti,
      fun j h2 => hmin j (Nat.zero_le j) h2⟩

/-- Witness for C8 at a concrete environment that never accepts and a 2 s
timeout. -/
theorem waitForPort_terminating_witness :
    ∃ b i evs,
      waitForPortLoop ⟨fun _ => true, fun _ => none, fun _ => true, fun _ _ => false⟩
        5000 2 0 (wfpFuel 2) = some (b, i, evs) ∧
      waitForPort ⟨fun _ => true, fun _ => none, fun _ => true, fun _ _ => false⟩
        5000 2 = (b, i, evs) ∧
      (b = true → attemptOk ⟨fun _ => true, fun _ => none, fun _ => true,
          fun _ _ => false⟩ 5000 i = true ∧
        ∀ j, j < i → attemptOk ⟨fun _ => true, fun _ => none, fun _ => true,
          fun _ _ => false⟩ 5000 j = false) ∧
      (b = false → (∀ j, j ≤ i → attemptOk ⟨fun _ => true, fun _ => none, fun _ => true,
          fun _ _ => false⟩ 5000 j = false) ∧
        1000 * 2 < 500 * (i : Int) ∧
        ∀ j, j < i → 500 * (j : Int) ≤ 1000 * 2) :=
  waitForPort_terminating ⟨fun _ => true, fun _ => none, fun _ => true, fun _ _ => false⟩
    5000 2

theorem isTerminate_eq_false_of_missing (e : Event) (h : isMissingDep e = true) :
    isTerminate e = false := by
  cases e <;> simp_all [isMissingDep, isTerminate]

theorem isSpawnOf_eq_false_of_port (x : String) (e : Event) (h : isPortEvent e = true) :
    isSpawnOf x e = false := by
  cases e <;> simp_all [isPortEvent, isSpawnOf]

theorem isTerminate_eq_false_of_port (e : Event) (h : isPortEvent e = true) :
    isTerminate e = false := by
  cases e <;> simp_all [isPortEvent, isTerminate]

/-- Claim C2 counterexample: two concrete runs refute the claim as stated.
With every file present, every spawn succeeding, but no connect attempt
ever succeeding, the frontend is spawned although the backend never became
ready (no successful connect occurs in the whole trace).  And with the
frontend spawn failing, the backend handle is terminated although the
frontend process never existed, let alone exited (no wait-for-exit occurs
in the trace). -/
theorem backend_order_cex :
    (let env1 : Env := ⟨fun _ => true, fun _ => some ⟨5, 6⟩, fun _ => true, fun _ _ => false⟩
     (mainProgram env1 "C:\\rdo").2.any (isSpawnOkOf (electronExe "C:\\rdo")) = true ∧
     (mainProgram env1 "C:\\rdo").2.any isConnectSuccess = false) ∧
    (let env2 : Env := ⟨fun _ => true,
        fun s => if s = backendCmd "C:\\rdo" then some ⟨5, 6⟩ else none,
        fun _ => true, fun _ _ => true⟩
     (mainProgram env2 "C:\\rdo").2.any isTerminate = true ∧
     (mainProgram env2 "C:\\rdo").2.any isWaitEv = false) := by
  exact ⟨⟨by decide, by decide⟩, ⟨by decide, by decide⟩⟩

/-- Claim C2 (amended): in every execution over a well-formed OS, the
backend spawn has succeeded, and the backend readiness wait has completed
(ending either in a successful connect or in a timeout), before any
frontend spawn attempt; and the backend handle is terminated only after
the frontend stage was reached — in a run that exits 0 the termination
moreover happens only after the blocking wait for the frontend's exit has
returned.  (The original claim fails in two ways: readiness is not
guaranteed — a timeout also lets the frontend start — and on the
frontend-spawn-failure path the destructor's `Cleanup` terminates the
backend although the frontend never exited.) -/
theorem run_order_invariants (env : Env) (p : String) (hwf : WFEnv env) :
    precededBy (isSpawnOkOf (pythonExe p)) (isSpawnOf (electronExe p))
      (mainProgram env p).2 = true ∧
    precededBy isReadyOrTimeout (isSpawnOf (electronExe p))
      (mainProgram env p).2 = true ∧
    precededBy (isSpawnOf (electronExe p)) isTerminate
      (mainProgram env p).2 = true ∧
    ((mainProgram env p).1 = 0 →
      precededBy isWaitEv isTerminate (mainProgram env p).2 = true) := by
  have hpe : (pythonExe p == electronExe p) = false :=
    beq_eq_false_iff_ne.mpr (pythonExe_ne_electronExe p)
  have hpp : (pythonExe p == pythonExe p) = true := beq_self_eq_true (pythonExe p)
  have hee : (electronExe p == electronExe p) = true := beq_self_eq_true (electronExe p)
  obtain ⟨hwport, hwrt⟩ :=
    waitForPortLoop_events env 5000 30 (wfpFuel 30) 0
      (waitForPort env 5000 30).1 (waitForPort env 5000 30).2.1
      (waitForPort env 5000 30).2.2 (by rw [waitForPort_eq_loop])
  cases hv : (verifyInstallation env p).1 with
  | false =>
    have hrun := run_eq_verify_fail env p hv
    have hcode : (mainProgram env p).1 = 1 := by simp [mainProgram, hrun]
    have hT : (mainProgram env p).2 =
        (verifyInstallation env p).2 ++
          [Event.dialog "Installation appears to be incomplete."] := by
      simp only [mainProgram, hrun]
      simp [cleanup, initState, ProcInfo.zeroed]
    rw [hT]
    have hnospawn : ∀ e ∈ (verifyInstallation env p).2 ++
        [Event.dialog "Installation appears to be incomplete."],
        isSpawnOf (electronExe p) e = false := by
      intro e he
      rcases List.mem_append.1 he with he | he
      · exact isSpawnOf_eq_false_of_missing _ _ (verify_events_missing env p e he)
      · simp at he; subst he; rfl
    have hnoterm : ∀ e ∈ (verifyInstallation env p).2 ++
        [Event.dialog "Installation appears to be incomplete."],
        isTerminate e = false := by
      intro e he
      rcases List.mem_append.1 he with he | he
      · exact isTerminate_eq_false_of_missing _ (verify_events_missing env p e he)
      · simp at he; subst he; rfl
    exact ⟨precededBy_of_no_q _ _ _ hnospawn, precededBy_of_no_q _ _ _ hnospawn,
      precededBy_of_no_q _ _ _ hnoterm,
      fun h0 => absurd (hcode.symm.trans h0) one_ne_zero⟩
  | true =>
    cases hb : env.spawn (backendCmd p) with
    | none =>
      have hrun := run_eq_backend_fail env p hv hb
      have hcode : (mainProgram env p).1 = 2 := by simp [mainProgram, hrun]
      have hT : (mainProgram env p).2 =
          (verifyInstallation env p).2 ++
            [Event.spawnEv (pythonExe p) (backendCmd p) p
               (env.fileExists (debugMarker p)) false,
             Event.logLine ("Failed to start process: " ++ pythonExe p),
             Event.dialog "Failed to start backend process."] := by
        simp only [mainProgram, hrun]
        simp [cleanup, initState, ProcInfo.zeroed]
      rw [hT]
      have hnospawn : ∀ e ∈ (verifyInstallation env p).2 ++
          [Event.spawnEv (pythonExe p) (backendCmd p) p
             (env.fileExists (debugMarker p)) false,
           Event.logLine ("Failed to start process: " ++ pythonExe p),
           Event.dialog "Failed to start backend process."],
          isSpawnOf (electronExe p) e = false := by
        intro e he
        rcases List.mem_append.1 he with he | he
        · exact isSpawnOf_eq_false_of_missing _ _ (verify_events_missing env p e he)
        · simp at he
          rcases he with rfl | rfl | rfl
          · simp [isSpawnOf, hpe]
          · rfl
          · rfl
      have hnoterm : ∀ e ∈ (verifyInstallation env p).2 ++
          [Event.spawnEv (pythonExe p) (backendCmd p) p
             (env.fileExists (debugMarker p)) false,
           Event.logLine ("Failed to start process: " ++ pythonExe p),
           Event.dialog "Failed to start backend process."],
          isTerminate e = false := by
        intro e he
        rcases List.mem_append.1 he with he | he
        · exact isTerminate_eq_false_of_missing _ (verify_events_missing env p e he)
        · simp at he
          rcases he with rfl | rfl | rfl <;> rfl
      exact ⟨precededBy_of_no_q _ _ _ hnospawn, precededBy_of_no_q _ _ _ hnospawn,
        precededBy_of_no_q _ _ _ hnoterm,
        fun h0 => absurd (hcode.symm.trans h0) two_ne_zero⟩
    | some bpi =>
      have hbp : bpi.hProcess ≠ 0 := hwf _ _ hb
      have hvq : ∀ e ∈ (verifyInstallation env p).2, isSpawnOf (electronExe p) e = false :=
        fun e he => isSpawnOf_eq_false_of_missing _ _ (verify_events_missing env p e he)
      have hvt : ∀ e ∈ (verifyInstallation env p).2, isTerminate e = false :=
        fun e he => isTerminate_eq_false_of_missing _ (verify_events_missing env p e he)
      have hwq : ∀ e ∈ (waitForPort env 5000 30).2.2, isSpawnOf (electronExe p) e = false :=
        fun e he => isSpawnOf_eq_false_of_port _ _ (hwport e he)
      have hwt : ∀ e ∈ (waitForPort env 5000 30).2.2, isTerminate e = false :=
        fun e he => isTerminate_eq_false_of_port _ (hwport e he)
      have hpyq : ∀ e ∈ [Event.spawnEv (pythonExe p) (backendCmd p) p
          (env.fileExists (debugMarker p)) true], isSpawnOf (electronExe p) e = false := by
        intro e he; simp at he; subst he; simp [isSpawnOf, hpe]
      have hpyt : ∀ e ∈ [Event.spawnEv (pythonExe p) (backendCmd p) p
          (env.fileExists (debugMarker p)) true], isTerminate e = false := by
        intro e he; simp at he; subst he; rfl
      have hpymem : ∃ e ∈ [Event.spawnEv (pythonExe p) (backendCmd p) p
          (env.fileExists (debugMarker p)) true], isSpawnOkOf (pythonExe p) e = true :=
        ⟨Event.spawnEv (pythonExe p) (backendCmd p) p (env.fileExists (debugMarker p)) true,
         by simp, by simp [isSpawnOkOf, hpp]⟩
      have hslt : ∀ e ∈ [Event.sleepMs 1000], isTerminate e = false := by
        intro e he; simp at he; subst he; rfl
      have hslq : ∀ e ∈ [Event.sleepMs 1000], isSpawnOf (electronExe p) e = false := by
        intro e he; simp at he; subst he; rfl
      cases hf : env.spawn (frontendCmd p) with
      | none =>
        have hrun := run_eq_frontend_fail env p bpi hv hb hf
        have hcode : (mainProgram env p).1 = 3 := by simp [mainProgram, hrun]
        have hT : (mainProgram env p).2 =
            (verifyInstallation env p).2 ++
              ([Event.spawnEv (pythonExe p) (backendCmd p) p
                  (env.fileExists (debugMarker p)) true] ++
                ((waitForPort env 5000 30).2.2 ++
                  ([Event.sleepMs 1000] ++
                    ([Event.spawnEv (electronExe p) (frontendCmd p) p true false,
                      Event.logLine ("Failed to start process: " ++ electronExe p),
                      Event.dialog "Failed to start Electron frontend."] ++
                     [Event.terminateProcess bpi.hProcess,
                      Event.closeHandle bpi.hProcess,
                      Event.closeHandle bpi.hThread])))) := by
          simp only [mainProgram, hrun]
          simp [cleanup, hbp, ProcInfo.zeroed]
        rw [hT]
        have hfq : ∀ e ∈ [Event.spawnEv (electronExe p) (frontendCmd p) p true false,
            Event.logLine ("Failed to start process: " ++ electronExe p),
            Event.dialog "Failed to start Electron frontend."], isTerminate e = false := by
          intro e he
          simp at he
          rcases he with rfl | rfl | rfl <;> rfl
        refine ⟨?_, ?_, ?_, fun h0 => absurd (hcode.symm.trans h0) three_ne_zero⟩
        · refine precededBy_append_of_no_q _ _ _ _ hvq ?_
          exact precededBy_append_of_p_mem _ _ _ _ hpyq hpymem
        · refine precededBy_append_of_no_q _ _ _ _ hvq ?_
          refine precededBy_append_of_no_q _ _ _ _ hpyq ?_
          exact precededBy_append_of_p_mem _ _ _ _ hwq hwrt
        · refine precededBy_append_of_no_q _ _ _ _ hvt ?_
          refine precededBy_append_of_no_q _ _ _ _ hpyt ?_
          refine precededBy_append_of_no_q _ _ _ _ hwt ?_
          refine precededBy_append_of_no_q _ _ _ _ hslt ?_
          refine precededBy_append_of_p_mem _ _ _ _ hfq ?_
          exact ⟨Event.spawnEv (electronExe p) (frontendCmd p) p true false,
            by simp, by simp [isSpawnOf, hee]⟩
      | some fpi =>
        have hfp : fpi.hProcess ≠ 0 := hwf _ _ hf
        have hrun := run_eq_ok env p bpi fpi hv hb hf
        have hcode : (mainProgram env p).1 = 0 := by simp [mainProgram, hrun]
        have hT : (mainProgram env p).2 =
            (verifyInstallation env p).2 ++
              ([Event.spawnEv (pythonExe p) (backendCmd p) p
                  (env.fileExists (debugMarker p)) true] ++
                ((waitForPort env 5000 30).2.2 ++
                  ([Event.sleepMs 1000] ++
                    ([Event.spawnEv (electronExe p) (frontendCmd p) p true true] ++
                      ([Event.waitForSingleObject fpi.hProcess] ++
                       [Event.terminateProcess bpi.hProcess,
                        Event.closeHandle bpi.hProcess,
                        Event.closeHandle bpi.hThread,
                        Event.closeHandle fpi.hProcess,
                        Event.closeHandle fpi.hThread]))))) := by
          simp only [mainProgram, hrun]
          simp [cleanup, waitForExit, hbp, hfp, ProcInfo.zeroed]
        rw [hT]
        have helq : ∀ e ∈ [Event.spawnEv (electronExe p) (frontendCmd p) p true true],
            isTerminate e = false := by
          intro e he; simp at he; subst he; rfl
        refine ⟨?_, ?_, ?_, fun _ => ?_⟩
        · refine precededBy_append_of_no_q _ _ _ _ hvq ?_
          exact precededBy_append_of_p_mem _ _ _ _ hpyq hpymem
        · refine precededBy_append_of_no_q _ _ _ _ hvq ?_
          refine precededBy_append_of_no_q _ _ _ _ hpyq ?_
          exact precededBy_append_of_p_mem _ _ _ _ hwq hwrt
        · refine precededBy_append_of_no_q _ _ _ _ hvt ?_
          refine precededBy_append_of_no_q _ _ _ _ hpyt ?_
          refine precededBy_append_of_no_q _ _ _ _ hwt ?_
          refine precededBy_append_of_no_q _ _ _ _ hslt ?_
          refine precededBy_append_of_p_mem _ _ _ _ helq ?_
          exact ⟨Event.spawnEv (electronExe p) (frontendCmd p) p true true,
            by simp, by simp [isSpawnOf, hee]⟩
        · refine precededBy_append_of_no_q _ _ _ _ hvt ?_
          refine precededBy_append_of_no_q _ _ _ _ hpyt ?_
          refine precededBy_append_of_no_q _ _ _ _ hwt ?_
          refine precededBy_append_of_no_q _ _ _ _ hslt ?_
          refine precededBy_append_of_no_q _ _ _ _ helq ?_
          refine precededBy_append_of_p_mem _ _ _ _ ?_ ?_
          · intro e he; simp at he; subst he; rfl
          · exact ⟨Event.waitForSingleObject fpi.hProcess, by simp, rfl⟩

/-- Witness for the amended C2 at a concrete all-succeeding environment. -/
theorem run_order_invariants_witness :
    precededBy (isSpawnOkOf (pythonExe "C:\\rdo")) (isSpawnOf (electronExe "C:\\rdo"))
      (mainProgram ⟨fun _ => true, fun _ => some ⟨7, 8⟩, fun _ => true, fun _ _ => true⟩
        "C:\\rdo").2 = true :=
  (run_order_invariants ⟨fun _ => true, fun _ => some ⟨7, 8⟩, fun _ => true, fun _ _ => true⟩
    "C:\\rdo" (fun s pi h => by cases h; decide)).1

end Launcher
